import Mathlib

/-!
Verification development for the MARA meta-analysis backend
(Flask variant `app.py`, FastAPI variant `mara_api/main.py`,
Celery variant `mara_api/tasks.py`).

Python strings are embedded as `List Char`; the external Model Gateway
(the `google.generativeai` client) is an oracle input: each call either
returns a text or raises an exception message.
-/

/-- Python strings are modeled as lists of characters. -/
abbrev Str := List Char

/-- The double-quote character (U+0022). -/
def dquote : Char := Char.ofNat 34

/-- The single-quote character (U+0027). -/
def squote : Char := Char.ofNat 39

/-- The backslash character (U+005C). -/
def bslash : Char := Char.ofNat 92

/-- The newline character (U+000A). -/
def nlChar : Char := Char.ofNat 10

/-- The carriage-return character (U+000D). -/
def crChar : Char := Char.ofNat 13

/-- The horizontal-tab character (U+0009). -/
def tabChar : Char := Char.ofNat 9

/-- Embedding of Python `text.replace(a, b)` for a one-character pattern `a`
and one-character replacement `b`: every occurrence of `a` is replaced by `b`. -/
def pyReplaceChar (a b : Char) (s : Str) : Str :=
  s.map (fun c => if c = a then b else c)

/-- Outcome of one Model Gateway call (`client.generate_content` /
`client.generate_content_async`): either the response text, or the message of
the exception the call raised. -/
inductive GatewayResult where
  | text (t : Str)
  | error (msg : Str)

/-- Values of the JSON fragment exercised by this development: strings, `null`,
and objects. The Stage-3 texts analyzed here contain no numbers, booleans or
arrays, so those productions are omitted from the embedding of the parser. -/
inductive JVal where
  | str (s : Str)
  | null
  | obj (fields : List (Str × JVal))

/-- Whitespace skipping of the JSON lexer (space, tab, newline, carriage return). -/
def skipWs : Str → Str
  | [] => []
  | c :: rest =>
    if c = ' ' ∨ c = tabChar ∨ c = nlChar ∨ c = crChar then skipWs rest
    else c :: rest

/-- Decoding of a JSON escape sequence character (the character after the backslash). -/
def escChar (c : Char) : Option Char :=
  if c = dquote then some dquote
  else if c = bslash then some bslash
  else if c = '/' then some '/'
  else if c = 'n' then some nlChar
  else if c = 'r' then some crChar
  else if c = 't' then some tabChar
  else none

/-- Parsing of a JSON string body (after the opening quote), returning the decoded
characters and the remaining input. Like Python `json.loads` in its default
strict mode, a raw control character (code point below 32) inside a string is
rejected. -/
def parseStringBody : Str → Option (Str × Str)
  | [] => none
  | c :: rest =>
    if c = dquote then some ([], rest)
    else if c = bslash then
      match rest with
      | [] => none
      | e :: rest2 =>
        match escChar e with
        | none => none
        | some d =>
          match parseStringBody rest2 with
          | none => none
          | some (s, r) => some (d :: s, r)
    else if c.toNat < 32 then none
    else
      match parseStringBody rest with
      | none => none
      | some (s, r) => some (c :: s, r)
termination_by structural s => s

mutual

/-- Parsing of one JSON value (string, `null`, or object), fuelled. -/
def parseValue : Nat → Str → Option (JVal × Str)
  | 0, _ => none
  | fuel + 1, s =>
    match skipWs s with
    | [] => none
    | c :: rest =>
      if c = dquote then
        match parseStringBody rest with
        | none => none
        | some (str, r) => some (JVal.str str, r)
      else if c = '{' then
        match skipWs rest with
        | [] => none
        | c2 :: rest2 =>
          if c2 = '}' then some (JVal.obj [], rest2)
          else
            match parseMembers fuel (c2 :: rest2) with
            | none => none
            | some (fs, r) => some (JVal.obj fs, r)
      else
        match c :: rest with
        | 'n' :: 'u' :: 'l' :: 'l' :: r => some (JVal.null, r)
        | _ => none
termination_by structural fuel => fuel

/-- Parsing of the members of a JSON object (at least one `key: value` pair),
up to and including the closing brace, fuelled. -/
def parseMembers : Nat → Str → Option (List (Str × JVal) × Str)
  | 0, _ => none
  | fuel + 1, s =>
    match skipWs s with
    | [] => none
    | c :: rest =>
      if c = dquote then
        match parseStringBody rest with
        | none => none
        | some (key, r1) =>
          match skipWs r1 with
          | ':' :: r2 =>
            match parseValue fuel r2 with
            | none => none
            | some (v, r3) =>
              match skipWs r3 with
              | ',' :: r4 =>
                match parseMembers fuel r4 with
                | none => none
                | some (fs, r5) => some ((key, v) :: fs, r5)
              | '}' :: r4 => some ([(key, v)], r4)
              | _ => none
          | _ => none
      else none
termination_by structural fuel => fuel

end

/-- Embedding of Python `json.loads` (and of the JSON front end of pydantic's
`model_validate_json`) on the JSON fragment used by this development: parse one
value and require that only whitespace remains. -/
def jsonLoads (s : Str) : Option JVal :=
  match parseValue (s.length + 1) s with
  | none => none
  | some (j, rest) => if skipWs rest = [] then some j else none

/-- Lookup of a key in a parsed JSON object's field list. Python builds a `dict`,
where a later duplicate key overwrites an earlier one, so the last occurrence wins. -/
def jlookup (k : Str) : List (Str × JVal) → Option JVal
  | [] => none
  | (k2, v) :: rest =>
    match jlookup k rest with
    | some v2 => some v2
    | none => if k2 = k then some v else none

/-- Field access on a JSON value: a lookup when the value is an object, nothing otherwise. -/
def jfield (j : JVal) (k : Str) : Option JVal :=
  match j with
  | JVal.obj fs => jlookup k fs
  | _ => none

/-- Wrapper the stream handlers put around every caught exception message:
Python `f"An error occurred: {str(e)}"` (app.py line 228, main.py lines 201 and 235). -/
def errWrap (e : Str) : Str := "An error occurred: ".data ++ e

/-- Stand-in for the message of the `json.JSONDecodeError` raised by `json.loads`
on unparsable input (the exact wording is never inspected by the code). -/
def jsonDecodeErr : Str := "JSONDecodeError".data

/-- Stand-in for the message of the `pydantic.ValidationError` raised when a
parsed object does not satisfy the schema (the exact wording is never inspected). -/
def validationErr : Str := "ValidationError".data

/-- Requirement that a JSON value be an object, as pydantic demands of a model's
input; anything else is a validation failure. -/
def asObjFields (j : JVal) : Except Str (List (Str × JVal)) :=
  match j with
  | JVal.obj fs => Except.ok fs
  | _ => Except.error validationErr

/-- Requirement of a field declared `str` in a pydantic model: the key must be
present and its value must be a JSON string. -/
def reqStrField (fs : List (Str × JVal)) (k : Str) : Except Str Str :=
  match jlookup k fs with
  | some (JVal.str s) => Except.ok s
  | _ => Except.error validationErr

/-- Requirement of a field holding a nested pydantic model: the key must be
present and its value must be a JSON object. -/
def reqObjField (fs : List (Str × JVal)) (k : Str) : Except Str (List (Str × JVal)) :=
  match jlookup k fs with
  | some (JVal.obj dfs) => Except.ok dfs
  | _ => Except.error validationErr

namespace FlaskApp

/-- Embedding of the `Confidence` enum of app.py (lines 42 to 45): exactly the
three tiers HIGH, MODERATE and LOW. -/
inductive Confidence where
  | HIGH
  | MODERATE
  | LOW
deriving DecidableEq

/-- String value of each `Confidence` member, as declared in app.py. -/
def Confidence.value : Confidence → Str
  | .HIGH => "HIGH".data
  | .MODERATE => "MODERATE".data
  | .LOW => "LOW".data

/-- Embedding of pydantic's validation of the `Confidence` enum field: the JSON
string must equal the value of one of the three members, exactly and
case-sensitively; anything else is rejected (pydantic never substitutes a default). -/
def parseConfidence (s : Str) : Option Confidence :=
  if s = "HIGH".data then some Confidence.HIGH
  else if s = "MODERATE".data then some Confidence.MODERATE
  else if s = "LOW".data then some Confidence.LOW
  else none

/-- Embedding of the `AnalysisDetails` model of app.py (lines 55 to 58):
`regression_models: Any | None = None`, `process: str`, `plots: Any | None = None`.
The two `Any | None` fields accept any JSON value and default to absent. -/
structure AnalysisDetails where
  regression_models : Option JVal
  process : Str
  plots : Option JVal

/-- Embedding of the `AnalysisResponse` model of app.py (lines 60 to 63). -/
structure AnalysisResponse where
  summary : Str
  confidence : Confidence
  details : AnalysisDetails

/-- Requirement of the `confidence` field: the string must be accepted by the
`Confidence` enum; an unrecognized token is a validation failure. -/
def reqConf (cs : Str) : Except Str Confidence :=
  match parseConfidence cs with
  | some c => Except.ok c
  | none => Except.error validationErr

/-- Embedding of `AnalysisResponse.model_validate(response_json)` (app.py line 373)
on a parsed JSON value: the value must be an object; `summary` must be a string;
`confidence` must be a string equal to one of the three enum values; `details`
must be an object whose `process` is a string, with `regression_models` and
`plots` optional. Key lookup is exact and case-sensitive, as in pydantic;
unknown extra keys are ignored. Every failure raises a `ValidationError`. -/
def model_validate (j : JVal) : Except Str AnalysisResponse :=
  match asObjFields j with
  | .error e => Except.error e
  | .ok fields =>
    match reqStrField fields "summary".data with
    | .error e => Except.error e
    | .ok summ =>
      match reqStrField fields "confidence".data with
      | .error e => Except.error e
      | .ok cs =>
        match reqConf cs with
        | .error e => Except.error e
        | .ok conf =>
          match reqObjField fields "details".data with
          | .error e => Except.error e
          | .ok dfields =>
            match reqStrField dfields "process".data with
            | .error e => Except.error e
            | .ok proc =>
              Except.ok
                { summary := summ
                  confidence := conf
                  details :=
                    { regression_models := jlookup "regression_models".data dfields
                      process := proc
                      plots := jlookup "plots".data dfields } }

end FlaskApp

namespace MaraApi

/-- Embedding of the `Confidence` enum of mara_api/main.py (lines 118 to 121)
and mara_api/tasks.py (lines 16 to 19): the tiers GREEN, YELLOW and RED. -/
inductive Confidence where
  | GREEN
  | YELLOW
  | RED
deriving DecidableEq

/-- String value of each `Confidence` member, as declared in main.py. -/
def Confidence.value : Confidence → Str
  | .GREEN => "GREEN".data
  | .YELLOW => "YELLOW".data
  | .RED => "RED".data

/-- Embedding of pydantic's validation of the FastAPI `Confidence` enum field. -/
def parseConfidence (s : Str) : Option Confidence :=
  if s = "GREEN".data then some Confidence.GREEN
  else if s = "YELLOW".data then some Confidence.YELLOW
  else if s = "RED".data then some Confidence.RED
  else none

/-- Embedding of the `AnalysisDetails` model of main.py (lines 131 to 134):
all three fields are required strings. -/
structure AnalysisDetails where
  regression_models : Str
  process : Str
  plots : Str

/-- Embedding of the `AnalysisResponse` model of main.py (lines 136 to 139). -/
structure AnalysisResponse where
  summary : Str
  confidence : Confidence
  details : AnalysisDetails

/-- Requirement of the `confidence` field of the FastAPI schema. -/
def reqConf (cs : Str) : Except Str Confidence :=
  match parseConfidence cs with
  | some c => Except.ok c
  | none => Except.error validationErr

/-- Embedding of the structural part of `AnalysisResponse.model_validate_json`
(main.py line 322, tasks.py line 62) on an already-parsed JSON value. -/
def validateParsed (j : JVal) : Except Str AnalysisResponse :=
  match asObjFields j with
  | .error e => Except.error e
  | .ok fields =>
    match reqStrField fields "summary".data with
    | .error e => Except.error e
    | .ok summ =>
      match reqStrField fields "confidence".data with
      | .error e => Except.error e
      | .ok cs =>
        match reqConf cs with
        | .error e => Except.error e
        | .ok conf =>
          match reqObjField fields "details".data with
          | .error e => Except.error e
          | .ok dfields =>
            match reqStrField dfields "regression_models".data,
                  reqStrField dfields "process".data,
                  reqStrField dfields "plots".data with
            | .ok rm, .ok proc, .ok pl =>
              Except.ok
                { summary := summ
                  confidence := conf
                  details := { regression_models := rm, process := proc, plots := pl } }
            | _, _, _ => Except.error validationErr

/-- Embedding of `AnalysisResponse.model_validate_json(response.text)`: the raw
text is parsed as JSON with no prior normalization of any kind, then validated
against the schema. -/
def model_validate_json (t : Str) : Except Str AnalysisResponse :=
  match jsonLoads t with
  | none => Except.error jsonDecodeErr
  | some j => validateParsed j

end MaraApi

/-- Payload of a `result` event: the validated analysis of whichever variant
produced it (app.py yields `analysis_result.model_dump(mode='json')`, main.py
yields `analysis_result.model_dump()`). -/
inductive ResultContent where
  | flask (r : FlaskApp.AnalysisResponse)
  | fast (r : MaraApi.AnalysisResponse)

/-- Embedding of the server-sent events the handlers yield: each constructor is
one literal `{"type": ..., ...}` dictionary shape occurring in app.py or main.py. -/
inductive Event where
  | update (content : Str)
  | fetch_result (url : Str)
  | step_result (step : Nat) (content : Str)
  | result (content : ResultContent)
  | conversation_id (content : Str)
  | error (content : Str)
  | message (content : Str)

/-- The `type` tag string of an event, exactly as written in the Python dictionaries. -/
def Event.tag : Event → Str
  | .update _ => "update".data
  | .fetch_result _ => "fetch_result".data
  | .step_result _ _ => "step_result".data
  | .result _ => "result".data
  | .conversation_id _ => "conversation_id".data
  | .error _ => "error".data
  | .message _ => "message".data

/-- Recognizer of `result` events. -/
def Event.isResult : Event → Bool
  | .result _ => true
  | _ => false

/-- Recognizer of `error` events. -/
def Event.isError : Event → Bool
  | .error _ => true
  | _ => false

/-- Recognizer of `message` events. -/
def Event.isMessage : Event → Bool
  | .message _ => true
  | _ => false

/-- Recognizer of `update` events. -/
def Event.isUpdate : Event → Bool
  | .update _ => true
  | _ => false

/-- Progress message of Stage 1, `'Finding relevant studies...'` (app.py line 192,
main.py line 163). -/
def updFinding : Str := "Finding relevant studies...".data

/-- Progress message of Stage 2, `'Extracting study data...'` (app.py line 198,
main.py line 166). -/
def updExtracting : Str := "Extracting study data...".data

/-- Progress message of Stage 2.5, `'Compacting data for analysis...'` (app.py line 204). -/
def updCompacting : Str := "Compacting data for analysis...".data

/-- Progress message of Stage 3, `'Analyzing study data...'` (app.py line 207,
main.py line 169). -/
def updAnalyzing : Str := "Analyzing study data...".data

/-- Follow-up progress message `'Analyzing followup...'` (main.py line 217). -/
def updFollowup : Str := "Analyzing followup...".data

/-- Suggestions text yielded as a trailing `update` event by the FastAPI chat
handler after the conversation id (main.py lines 190 to 197). -/
def updSuggestions : Str :=
  ("Analysis complete. Here are some things you can do next:\n- Show me a forest plot of the results\n- Show me the procedures used\n- Show me a list of included citations\n- Show me the meta-analytic models\n- Ask another question").data

/-- Error message of the Flask follow-up handler for an unknown or expired
conversation (app.py line 265). -/
def notFoundMsg : Str := "Conversation not found or has expired.".data

/-- Error message of the Flask follow-up handler for a foreign conversation
(app.py line 272). -/
def accessDeniedMsg : Str := "Access denied to this conversation.".data

/-- Stand-in for the message of the exception a failing Redis write raises
(the wording of the driver's exception is outside the repository). -/
def redisDownMsg : Str := "redis connection error".data

namespace FlaskApp

/-- Embedding of `get_studies` (app.py lines 302 to 314): one gateway call; on
success the response text with every double quote replaced by a single quote
(`response.text.replace('"', "'")`); a gateway exception propagates. -/
def get_studies (g : GatewayResult) : Except Str Str :=
  match g with
  | .error e => Except.error e
  | .text t => Except.ok (pyReplaceChar dquote squote t)

/-- Embedding of `extract_studies_data` (app.py lines 316 to 328): one gateway
call; on success the response text with `.replace('\n', ' ').replace('\r', ' ')`. -/
def extract_studies_data (g : GatewayResult) : Except Str Str :=
  match g with
  | .error e => Except.error e
  | .text t => Except.ok (pyReplaceChar crChar ' ' (pyReplaceChar nlChar ' ' t))

/-- Embedding of `summarize_data_for_analysis` (app.py lines 330 to 345): one
gateway call; on success `.replace('\n', ' ').replace('\r', ' ').replace('"', "'")`. -/
def summarize_data_for_analysis (g : GatewayResult) : Except Str Str :=
  match g with
  | .error e => Except.error e
  | .text t =>
    Except.ok (pyReplaceChar dquote squote (pyReplaceChar crChar ' ' (pyReplaceChar nlChar ' ' t)))

/-- One attempt of the Stage-3 loop body (app.py lines 359 to 373): the gateway
call, then `.replace('\n', ' ').replace('\r', ' ')`, then `json.loads`, then
`AnalysisResponse.model_validate`; any of the four failing raises. -/
def analyzeAttempt (g : GatewayResult) : Except Str AnalysisResponse :=
  match g with
  | .error e => Except.error e
  | .text t =>
    match jsonLoads (pyReplaceChar crChar ' ' (pyReplaceChar nlChar ' ' t)) with
    | none => Except.error jsonDecodeErr
    | some j => model_validate j

/-- Message of the terminal `ValueError` of the Stage-3 loop,
`f"Step 3 failed after {max_retries + 1} attempts. Last error: {last_error}"`
(app.py line 380); the rendering of the attempt count is elided, the last
error is kept. -/
def step3FailMsg (lastError : Str) : Str :=
  "Step 3 failed. Last error: ".data ++ lastError

/-- The retry loop of `analyze_studies` (app.py lines 358 to 380), started at
attempt index `i` with `remaining` further attempts allowed after the current
one. Returns the number of attempts actually made, paired with the outcome:
a success returns immediately, a failure on the last attempt raises. -/
def analyzeLoop (oracle : Nat → GatewayResult) : Nat → Nat → Nat × Except Str AnalysisResponse
  | i, remaining =>
    match analyzeAttempt (oracle i) with
    | .ok r => (1, Except.ok r)
    | .error e =>
      match remaining with
      | 0 => (1, Except.error (step3FailMsg e))
      | rem + 1 =>
        let res := analyzeLoop oracle (i + 1) rem
        (res.1 + 1, res.2)

/-- Embedding of `analyze_studies(step_2_5_compact_data, max_retries)` (app.py
lines 347 to 380): up to `max_retries + 1` attempts of the same gateway call
followed by cleaning, JSON parsing and schema validation; the `attempt`-th call
of the loop is the oracle at index `attempt`. -/
def analyze_studies (oracle : Nat → GatewayResult) (max_retries : Nat := 1) :
    Nat × Except Str AnalysisResponse :=
  analyzeLoop oracle 0 max_retries

/-- Session dictionary stored under `session:{conversation_id}` by the Flask chat
handler (app.py lines 212 to 218). The stored `analysis_data_str` is
`json.dumps` of the analysis dictionary; the serialization step is not observed
by any caller in the repository, so the session keeps the validated value itself. -/
structure Session where
  user_id : Int
  original_query : Str
  studies_data : Str
  analysis : AnalysisResponse

/-- Oracle for one run of the Flask chat pipeline: the outcome of each stage's
gateway call (Stage 3 indexed by attempt) and of each of the three Redis writes
(`true` means the write succeeds; a failing write raises into the handler's
`except` clause). -/
structure ChatOracle where
  step1 : GatewayResult
  step2 : GatewayResult
  step25 : GatewayResult
  step3 : Nat → GatewayResult
  redis1 : Bool
  redis2 : Bool
  redisS : Bool

/-- Observable outcome of one run of the Flask chat stream: the events yielded,
the number of gateway calls made per stage, and the session written (if any). -/
structure ChatRun where
  events : List Event
  c1 : Nat
  c2 : Nat
  c25 : Nat
  c3 : Nat
  stored : Option (Str × Session)

/-- URL of the intermediate artifact of a step, `f'/results/{conversation_id}:stepN'`
(app.py lines 194 to 196 and 200 to 202). -/
def resultsUrl (cid suffix : Str) : Str := "/results/".data ++ cid ++ suffix

/-- Embedding of `chat_api.event_generator` (app.py lines 188 to 229) for an
authenticated user `uid`, query `q`, and fresh conversation id `cid`: the four
stages run in order, each preceded by its `update` event; the Stage-1 and
Stage-2 artifacts are written to Redis and announced by `fetch_result` events;
on full success the session is stored and a `result` event then a
`conversation_id` event are yielded; the first exception anywhere is caught and
turned into a single terminal `error` event. -/
def event_generator (uid : Int) (q cid : Str) (o : ChatOracle) : ChatRun :=
  let u1 := Event.update updFinding
  match get_studies o.step1 with
  | .error e => ⟨[u1, Event.error (errWrap e)], 1, 0, 0, 0, none⟩
  | .ok _s1 =>
    if o.redis1 = false then
      ⟨[u1, Event.error (errWrap redisDownMsg)], 1, 0, 0, 0, none⟩
    else
      let f1 := Event.fetch_result (resultsUrl cid ":step1".data)
      let u2 := Event.update updExtracting
      match extract_studies_data o.step2 with
      | .error e => ⟨[u1, f1, u2, Event.error (errWrap e)], 1, 1, 0, 0, none⟩
      | .ok s2 =>
        if o.redis2 = false then
          ⟨[u1, f1, u2, Event.error (errWrap redisDownMsg)], 1, 1, 0, 0, none⟩
        else
          let f2 := Event.fetch_result (resultsUrl cid ":step2".data)
          let u3 := Event.update updCompacting
          match summarize_data_for_analysis o.step25 with
          | .error e => ⟨[u1, f1, u2, f2, u3, Event.error (errWrap e)], 1, 1, 1, 0, none⟩
          | .ok _s25 =>
            let u4 := Event.update updAnalyzing
            let a3 := analyze_studies o.step3
            match a3.2 with
            | .error e =>
              ⟨[u1, f1, u2, f2, u3, u4, Event.error (errWrap e)], 1, 1, 1, a3.1, none⟩
            | .ok analysis =>
              if o.redisS = false then
                ⟨[u1, f1, u2, f2, u3, u4, Event.error (errWrap redisDownMsg)],
                  1, 1, 1, a3.1, none⟩
              else
                ⟨[u1, f1, u2, f2, u3, u4,
                    Event.result (ResultContent.flask analysis),
                    Event.conversation_id cid],
                  1, 1, 1, a3.1,
                  some (cid, ⟨uid, q, s2, analysis⟩)⟩

end FlaskApp

namespace MaraApi

/-- Message of the guard `if not user_query` in the FastAPI `get_studies`
(main.py lines 261 to 262). -/
def emptyQueryMsg : Str := "Step 1: user_query is empty.".data

/-- Message of the guard `if not response.text` in the FastAPI `get_studies`
(main.py lines 266 to 267). -/
def noResponse1Msg : Str := "Step 1: No response from Gemini.".data

/-- Message of the guard `if not step_1_result` in the FastAPI
`extract_studies_data` (main.py lines 287 to 288). -/
def emptyStep1Msg : Str := "Step 2: step_1_result is empty.".data

/-- Message of the guard `if not response.text` in the FastAPI
`extract_studies_data` (main.py lines 292 to 293). -/
def noResponse2Msg : Str := "Step 2: No response from Gemini.".data

/-- Message of the guard `if not step_2_result` in the FastAPI `analyze_studies`
(main.py lines 312 to 313). -/
def emptyStep2Msg : Str := "Step 3: step_2_result is empty.".data

/-- Message of the terminal `ValueError` of the FastAPI `analyze_studies`,
`f"Step 3 failed because the API did not return valid JSON. Error: {e}"`
(main.py line 326). -/
def step3FailedMsg (e : Str) : Str :=
  "Step 3 failed because the API did not return valid JSON. Error: ".data ++ e

/-- Embedding of the FastAPI `get_studies` (main.py lines 260 to 268): an empty
query raises before any gateway call; otherwise one gateway call, whose empty
response also raises. Returns the number of gateway calls made with the outcome. -/
def get_studies (q : Str) (g : GatewayResult) : Nat × Except Str Str :=
  if q.isEmpty then (0, Except.error emptyQueryMsg)
  else
    match g with
    | .error e => (1, Except.error e)
    | .text t => if t.isEmpty then (1, Except.error noResponse1Msg) else (1, Except.ok t)

/-- Embedding of the FastAPI `extract_studies_data` (main.py lines 286 to 294):
same shape as Stage 1, no normalization of the response text. -/
def extract_studies_data (s1 : Str) (g : GatewayResult) : Nat × Except Str Str :=
  if s1.isEmpty then (0, Except.error emptyStep1Msg)
  else
    match g with
    | .error e => (1, Except.error e)
    | .text t => if t.isEmpty then (1, Except.error noResponse2Msg) else (1, Except.ok t)

/-- Embedding of the FastAPI `analyze_studies` (main.py lines 311 to 326): an
empty dataset raises before the call; otherwise one schema-constrained gateway
call whose raw text goes straight to `AnalysisResponse.model_validate_json`
with no normalization; any exception in the call or the validation is re-raised
as the Stage-3 `ValueError`. -/
def analyze_studies (s2 : Str) (g : GatewayResult) : Nat × Except Str AnalysisResponse :=
  if s2.isEmpty then (0, Except.error emptyStep2Msg)
  else
    match g with
    | .error e => (1, Except.error (step3FailedMsg e))
    | .text t =>
      match model_validate_json t with
      | .error e => (1, Except.error (step3FailedMsg e))
      | .ok r => (1, Except.ok r)

/-- Session stored in `chat_sessions[conversation_id]` by the FastAPI chat
handler (main.py lines 173 to 183); history entries are `(role, content)` pairs. -/
structure Session where
  user_id : Int
  original_query : Str
  studies_list : Str
  studies_data : Str
  analysis_summary : Str
  history : List (Str × Str)

/-- Oracle for one run of the FastAPI chat pipeline: the outcome of the three
gateway calls. The in-memory `chat_sessions` dictionary write cannot fail, and
the GenAI client is assumed initialized (the `if not client` guard of main.py
line 158 only fires before the startup hook has run). -/
structure ChatOracle where
  step1 : GatewayResult
  step2 : GatewayResult
  step3 : GatewayResult

/-- Observable outcome of one run of the FastAPI chat stream. -/
structure ChatRun where
  events : List Event
  c1 : Nat
  c2 : Nat
  c3 : Nat
  stored : Option (Str × Session)

/-- The `"user"` role string of history entries. -/
def roleUser : Str := "user".data

/-- The `"assistant"` role string of history entries. -/
def roleAssistant : Str := "assistant".data

/-- Embedding of `chat_api.event_generator` (main.py lines 157 to 202) for user
`uid`, query `q` and fresh conversation id `cid`: three stages in order, each
preceded by its `update` event and followed by a `step_result` event; on full
success the session (with a two-entry initial history) is stored and the stream
continues with `result`, `conversation_id`, and a trailing suggestions `update`;
the first exception is caught and becomes a single terminal `error` event. -/
def event_generator (uid : Int) (q cid : Str) (o : ChatOracle) : ChatRun :=
  let u1 := Event.update updFinding
  match get_studies q o.step1 with
  | (n1, .error e) => ⟨[u1, Event.error (errWrap e)], n1, 0, 0, none⟩
  | (n1, .ok s1) =>
    let r1 := Event.step_result 1 s1
    let u2 := Event.update updExtracting
    match extract_studies_data s1 o.step2 with
    | (n2, .error e) => ⟨[u1, r1, u2, Event.error (errWrap e)], n1, n2, 0, none⟩
    | (n2, .ok s2) =>
      let r2 := Event.step_result 2 s2
      let u3 := Event.update updAnalyzing
      match analyze_studies s2 o.step3 with
      | (n3, .error e) => ⟨[u1, r1, u2, r2, u3, Event.error (errWrap e)], n1, n2, n3, none⟩
      | (n3, .ok analysis) =>
        let sess : Session :=
          ⟨uid, q, s1, s2, analysis.summary,
            [(roleUser, q), (roleAssistant, analysis.summary)]⟩
        ⟨[u1, r1, u2, r2, u3,
            Event.result (ResultContent.fast analysis),
            Event.conversation_id cid,
            Event.update updSuggestions],
          n1, n2, n3, some (cid, sess)⟩

end MaraApi

namespace Tasks

/-- Oracle for one execution of the Celery task body: the outcome of the three
gateway calls of that execution (tasks.py defines its own copies of the stage
functions; their prompts and schema match the FastAPI variant embedded in
`MaraApi`, which this namespace reuses). -/
structure TaskOracle where
  step1 : GatewayResult
  step2 : GatewayResult
  step3 : GatewayResult

/-- Successful payload of `run_full_analysis` (tasks.py lines 134 to 138). -/
structure TaskResult where
  step_1_result : Str
  step_2_result : Str
  analysis_result : MaraApi.AnalysisResponse

/-- Counts of gateway calls made per stage by one or more task executions,
with the final outcome. -/
structure TaskRun where
  c1 : Nat
  c2 : Nat
  c3 : Nat
  res : Except Str TaskResult

/-- Embedding of one execution of the `run_full_analysis` task body (tasks.py
lines 117 to 141): the three stages run in order with no retry inside the body;
`analyze_studies_sync` validates the Stage-3 text with
`AnalysisResponse.model_validate_json` and any exception propagates out of the
task. The sync stage functions (tasks.py lines 42 to 62) apply no guards and no
text normalization. -/
def run_full_analysis (o : TaskOracle) : TaskRun :=
  match o.step1 with
  | .error e => ⟨1, 0, 0, Except.error e⟩
  | .text s1 =>
    match o.step2 with
    | .error e => ⟨1, 1, 0, Except.error e⟩
    | .text s2 =>
      match o.step3 with
      | .error e => ⟨1, 1, 1, Except.error e⟩
      | .text t =>
        match MaraApi.model_validate_json t with
        | .error e => ⟨1, 1, 1, Except.error e⟩
        | .ok r => ⟨1, 1, 1, Except.ok ⟨s1, s2, r⟩⟩

/-- Embedding of Celery's execution of `run_full_analysis` under the decorator
`@celery_app.task(bind=True, autoretry_for=(Exception,), retry_backoff=True,
max_retries=3)` (tasks.py line 116): when the task body raises, Celery
re-invokes the entire task body, up to `remaining` additional invocations; the
`i`-th invocation sees the oracle at index `i`. Gateway-call counts accumulate
across invocations. -/
def celeryExecute (runs : Nat → TaskOracle) : Nat → Nat → TaskRun
  | i, 0 => run_full_analysis (runs i)
  | i, remaining + 1 =>
    let cur := run_full_analysis (runs i)
    match cur.res with
    | .ok r => ⟨cur.c1, cur.c2, cur.c3, Except.ok r⟩
    | .error _ =>
      let rest := celeryExecute runs (i + 1) remaining
      ⟨cur.c1 + rest.c1, cur.c2 + rest.c2, cur.c3 + rest.c3, rest.res⟩

/-- The dispatch of the task with its configured retry budget `max_retries=3`. -/
def celeryDispatch (runs : Nat → TaskOracle) : TaskRun :=
  celeryExecute runs 0 3

end Tasks

/-- Oracle for one follow-up model stream (`client.generate_content(...,
stream=True)` in app.py, `client.generate_content_async(..., stream=True)` in
main.py): the texts of the chunks the stream yields before it either completes
(`err = none`) or raises with message `e` (`err = some e`). A chunk whose text
is empty is skipped by both handlers (`if chunk.text:`). -/
structure StreamOracle where
  chunks : List Str
  err : Option Str

/-- Message events and accumulated `full_response` produced by the chunk loop of
both follow-up handlers (app.py lines 284 to 288, main.py lines 223 to 227):
one `message` event per chunk with non-empty text, concatenated in order. -/
def followupChunkEvents : List Str → List Event × Str
  | [] => ([], [])
  | c :: rest =>
    if c.isEmpty then followupChunkEvents rest
    else
      let p := followupChunkEvents rest
      (Event.message c :: p.1, c ++ p.2)

namespace FlaskApp

/-- Responses of the Flask `/followup` route (app.py lines 249 to 298): a 400
for a missing field, or an event stream; `modelCalls` counts the GenAI client
calls made while producing the stream (two `count_tokens` and one
`generate_content` on success, the final `count_tokens` being skipped when the
stream raises). -/
inductive FollowupResponse where
  | badRequest
  | stream (events : List Event) (modelCalls : Nat)

/-- Embedding of `followup_api` (app.py lines 249 to 298) for authenticated user
`uid`: a falsy `conversation_id` or `message` is a 400; an unknown session id
yields a single not-found `error` event; a session owned by another user yields
a single access-denied `error` event, in both cases without any client call;
otherwise the generator streams the model chunks as `message` events (the Flask
variant appends nothing to the session and stores no history), turning a
mid-stream exception into a terminal `error` event. -/
def followup_api (store : Str → Option Session) (uid : Int) (conversationId msg : Str)
    (o : StreamOracle) : FollowupResponse :=
  if conversationId.isEmpty ∨ msg.isEmpty then FollowupResponse.badRequest
  else
    match store conversationId with
    | none => FollowupResponse.stream [Event.error notFoundMsg] 0
    | some sd =>
      if sd.user_id ≠ uid then FollowupResponse.stream [Event.error accessDeniedMsg] 0
      else
        let p := followupChunkEvents o.chunks
        match o.err with
        | some e => FollowupResponse.stream (p.1 ++ [Event.error (errWrap e)]) 2
        | none => FollowupResponse.stream p.1 3

end FlaskApp

namespace MaraApi

/-- Embedding of `followup_api.followup_generator` (main.py lines 215 to 236):
an initial `update` event, one `message` event per non-empty chunk, and then
either (stream completed) the two history entries are appended to the session —
the user message and the full concatenated response — or (stream raised) a
single terminal `error` event with the session left untouched. Returns the
events and the session as stored after the turn. -/
def followup_generator (sd : Session) (msg : Str) (o : StreamOracle) :
    List Event × Session :=
  let p := followupChunkEvents o.chunks
  match o.err with
  | some e => (Event.update updFollowup :: p.1 ++ [Event.error (errWrap e)], sd)
  | none =>
    (Event.update updFollowup :: p.1,
      { sd with history := sd.history ++ [(roleUser, msg), (roleAssistant, p.2)] })

/-- Responses of the FastAPI `/followup` route (main.py lines 205 to 238): a 404
`HTTPException` for an unknown conversation, a 403 `HTTPException` when the
session's owner differs from the caller — both raised before the streaming
response is built, so no model call is made — or the generator's stream with
the updated session and its single `generate_content_async` call. -/
inductive FollowupResponse where
  | notFound
  | forbidden
  | stream (events : List Event) (updated : Session) (modelCalls : Nat)

/-- Embedding of `followup_api` (main.py lines 205 to 238) for authenticated
user `uid`. -/
def followup_api (store : Str → Option Session) (uid : Int) (conversationId msg : Str)
    (o : StreamOracle) : FollowupResponse :=
  match store conversationId with
  | none => FollowupResponse.notFound
  | some sd =>
    if sd.user_id ≠ uid then FollowupResponse.forbidden
    else
      let p := followup_generator sd msg o
      FollowupResponse.stream p.1 p.2 1

end MaraApi

/-- Stage-3 raw text for the Flask schema with a literal newline embedded inside
the `summary` JSON string value (invalid JSON as-is; valid once the handler has
replaced newlines by spaces). -/
def flaskGoodNl : Str :=
  "\x7b\"summary\": \"a\nb\", \"confidence\": \"HIGH\", \"details\": \x7b\"process\": \"p\"\x7d\x7d".data

/-- The analysis the Flask validator produces from `flaskGoodNl`. -/
def flaskGoodResp : FlaskApp.AnalysisResponse :=
  { summary := "a b".data
    confidence := FlaskApp.Confidence.HIGH
    details := { regression_models := none, process := "p".data, plots := none } }

/-- A well-formed Stage-3 text for the Flask schema, without fences or newlines. -/
def flaskInnerText : Str :=
  "\x7b\"summary\": \"s\", \"confidence\": \"LOW\", \"details\": \x7b\"process\": \"p\"\x7d\x7d".data

/-- The JSON object `flaskInnerText` parses to. -/
def flaskInnerJ : JVal :=
  JVal.obj
    [("summary".data, JVal.str "s".data),
     ("confidence".data, JVal.str "LOW".data),
     ("details".data, JVal.obj [("process".data, JVal.str "p".data)])]

/-- The analysis the Flask validator produces from `flaskInnerJ`. -/
def flaskInnerResp : FlaskApp.AnalysisResponse :=
  { summary := "s".data
    confidence := FlaskApp.Confidence.LOW
    details := { regression_models := none, process := "p".data, plots := none } }

/-- The same well-formed Stage-3 text wrapped in a markdown code fence, as the
upstream model sometimes returns it. -/
def fencedText : Str := "```json\n".data ++ flaskInnerText ++ "\n```".data

/-- A Stage-3 text that matches the Flask schema except that every field name is
capitalized; lower-casing its keys would give exactly `flaskInnerText`. -/
def caseText : Str :=
  "\x7b\"Summary\": \"s\", \"Confidence\": \"LOW\", \"Details\": \x7b\"Process\": \"p\"\x7d\x7d".data

/-- A Stage-3 text whose confidence token `MEDIUM` is none of the three tiers. -/
def badConfText : Str :=
  "\x7b\"summary\": \"s\", \"confidence\": \"MEDIUM\", \"details\": \x7b\"process\": \"p\"\x7d\x7d".data

/-- The JSON object `badConfText` parses to. -/
def badConfJ : JVal :=
  JVal.obj
    [("summary".data, JVal.str "s".data),
     ("confidence".data, JVal.str "MEDIUM".data),
     ("details".data, JVal.obj [("process".data, JVal.str "p".data)])]

/-- A well-formed Stage-3 text for the FastAPI schema. -/
def maraGoodText : Str :=
  "\x7b\"summary\": \"s\", \"confidence\": \"GREEN\", \"details\": \x7b\"regression_models\": \"m\", \"process\": \"p\", \"plots\": \"f\"\x7d\x7d".data

/-- A Stage-3 text for the FastAPI schema with a literal newline inside the
`summary` string value. -/
def maraGoodNl : Str :=
  "\x7b\"summary\": \"a\nb\", \"confidence\": \"GREEN\", \"details\": \x7b\"regression_models\": \"m\", \"process\": \"p\", \"plots\": \"f\"\x7d\x7d".data

/-- The analysis the FastAPI validator produces from `maraGoodNl` once its
newline has been replaced by a space. -/
def maraGoodNlResp : MaraApi.AnalysisResponse :=
  { summary := "a b".data
    confidence := MaraApi.Confidence.GREEN
    details := { regression_models := "m".data, process := "p".data, plots := "f".data } }

/-- A fully successful oracle for the Flask chat pipeline. -/
def okFlaskOracle : FlaskApp.ChatOracle :=
  { step1 := GatewayResult.text "a".data
    step2 := GatewayResult.text "b".data
    step25 := GatewayResult.text "c".data
    step3 := fun _ => GatewayResult.text flaskGoodNl
    redis1 := true
    redis2 := true
    redisS := true }

/-- A fully successful oracle for the FastAPI chat pipeline. -/
def okMaraOracle : MaraApi.ChatOracle :=
  { step1 := GatewayResult.text "a".data
    step2 := GatewayResult.text "b".data
    step3 := GatewayResult.text maraGoodText }

/-- A Celery task oracle whose first two stages succeed and whose Stage-3
gateway call raises on every execution. -/
def celeryBadOracle : Tasks.TaskOracle :=
  { step1 := GatewayResult.text "a".data
    step2 := GatewayResult.text "b".data
    step3 := GatewayResult.error "boom".data }

/-- A Flask follow-up session owned by user 2. -/
def sessFlask0 : FlaskApp.Session :=
  { user_id := 2
    original_query := "q".data
    studies_data := "d".data
    analysis := flaskGoodResp }

/-- A FastAPI follow-up session owned by user 2, with the initial two-entry history. -/
def sessMara0 : MaraApi.Session :=
  { user_id := 2
    original_query := "q".data
    studies_list := "l".data
    studies_data := "d".data
    analysis_summary := "s".data
    history := [(MaraApi.roleUser, "q".data), (MaraApi.roleAssistant, "s".data)] }

/-- A Flask chat oracle whose first three stages succeed and whose Stage-3
gateway call raises on every attempt. -/
def failFlaskOracle : FlaskApp.ChatOracle :=
  { step1 := GatewayResult.text "a".data
    step2 := GatewayResult.text "b".data
    step25 := GatewayResult.text "c".data
    step3 := fun _ => GatewayResult.error "x".data
    redis1 := true
    redis2 := true
    redisS := true }


/-- Event-type tags the Flask chat stream can emit. -/
def flaskChatTags : List Str :=
  ["update".data, "fetch_result".data, "result".data, "conversation_id".data, "error".data]

/-- Event-type tags the FastAPI chat stream can emit. -/
def maraChatTags : List Str :=
  ["update".data, "step_result".data, "result".data, "conversation_id".data, "error".data]

/-- Event-type tags named by the spec's `ProgressEvent` union. -/
def specTags : List Str :=
  ["update".data, "result".data, "conversation_id".data, "error".data]

/-- Replacing every occurrence of `a` by a different character leaves no
occurrence of `a` in the result. -/
theorem pyReplaceChar_not_mem_self (a b : Char) (h : a ≠ b) (s : Str) :
    a ∉ pyReplaceChar a b s := by
  intro hm
  rcases List.mem_map.mp hm with ⟨c, _, hc⟩
  by_cases hca : c = a
  · rw [if_pos hca] at hc
    exact h hc.symm
  · rw [if_neg hca] at hc
    exact hca hc

/-- A character absent from a string and different from the replacement
character stays absent after the replacement. -/
theorem pyReplaceChar_not_mem (a b c : Char) (hcb : c ≠ b) (s : Str) (hs : c ∉ s) :
    c ∉ pyReplaceChar a b s := by
  intro hm
  rcases List.mem_map.mp hm with ⟨d, hd, hdc⟩
  by_cases hda : d = a
  · rw [if_pos hda] at hdc
    exact hcb hdc.symm
  · rw [if_neg hda] at hdc
    exact hs (hdc ▸ hd)

/-- A confidence token the Flask enum accepts is the exact string value of the
member it maps to. -/
theorem FlaskApp.parseConfidence_value {s : Str} {c : FlaskApp.Confidence}
    (h : FlaskApp.parseConfidence s = some c) : FlaskApp.Confidence.value c = s := by
  unfold FlaskApp.parseConfidence at h
  split_ifs at h with h1 h2 h3
  · injection h with h4
    subst h4
    simp [FlaskApp.Confidence.value, h1]
  · injection h with h4
    subst h4
    simp [FlaskApp.Confidence.value, h2]
  · injection h with h4
    subst h4
    simp [FlaskApp.Confidence.value, h3]

/-- Inversion of a successful object requirement. -/
theorem asObjFields_ok {j : JVal} {fs : List (Str × JVal)}
    (h : asObjFields j = Except.ok fs) : j = JVal.obj fs := by
  cases j with
  | str s => exact absurd h (by simp [asObjFields])
  | null => exact absurd h (by simp [asObjFields])
  | obj fs2 =>
    unfold asObjFields at h
    injection h with h2
    rw [h2]

/-- Inversion of a successful string-field requirement. -/
theorem reqStrField_ok {fs : List (Str × JVal)} {k s : Str}
    (h : reqStrField fs k = Except.ok s) : jlookup k fs = some (JVal.str s) := by
  unfold reqStrField at h
  split at h
  · injection h with h2
    subst h2
    assumption
  · exact absurd h (by simp)

/-- Inversion of a successful object-field requirement. -/
theorem reqObjField_ok {fs dfs : List (Str × JVal)} {k : Str}
    (h : reqObjField fs k = Except.ok dfs) : jlookup k fs = some (JVal.obj dfs) := by
  unfold reqObjField at h
  split at h
  · injection h with h2
    subst h2
    assumption
  · exact absurd h (by simp)

/-- Inversion of a successful confidence requirement (Flask schema). -/
theorem FlaskApp.reqConf_ok {cs : Str} {c : FlaskApp.Confidence}
    (h : FlaskApp.reqConf cs = Except.ok c) : FlaskApp.parseConfidence cs = some c := by
  unfold FlaskApp.reqConf at h
  split at h
  · injection h with h2
    subst h2
    assumption
  · exact absurd h (by simp)

/-- Inversion of a successfully validated Flask analysis: the input was an
object whose `confidence` field held exactly the string value of the accepted
enum member. -/
theorem FlaskApp.model_validate_ok_inv {j : JVal} {r : FlaskApp.AnalysisResponse}
    (h : FlaskApp.model_validate j = Except.ok r) :
    ∃ fs, j = JVal.obj fs ∧
      jlookup "confidence".data fs =
        some (JVal.str (FlaskApp.Confidence.value r.confidence)) := by
  unfold FlaskApp.model_validate at h
  repeat' split at h
  all_goals try exact Except.noConfusion h
  rename_i x5 fields hobj x4 summ hsum x3 cs hcs x2 conf hconf x1 dfields hdet x0 proc hproc
  injection h with h5
  subst h5
  exact ⟨fields, asObjFields_ok hobj,
    by simp [reqStrField_ok hcs, FlaskApp.parseConfidence_value (FlaskApp.reqConf_ok hconf)]⟩

/-- Boolean success recognizer of an embedded Python call that may raise. -/
def isOkE {α : Type} (x : Except Str α) : Bool :=
  match x with
  | .ok _ => true
  | .error _ => false

/-- A member's own string value always parses back to that member. -/
theorem FlaskApp.parseConfidence_value_roundtrip (c : FlaskApp.Confidence) :
    FlaskApp.parseConfidence (FlaskApp.Confidence.value c) = some c := by
  cases c <;> rfl

/-- C3: the Flask Stage-3 validator accepts a raw text only if its confidence
token is exactly one of the three defined tiers, the accepted analysis carries
that exact token, and a raw text whose confidence token is none of the three is
always rejected, never coerced to a default tier. -/
theorem C3_confidence_exactly_three_tiers (t : Str) :
    (∀ r, FlaskApp.analyzeAttempt (GatewayResult.text t) = Except.ok r →
      ∃ fs, jsonLoads (pyReplaceChar crChar ' ' (pyReplaceChar nlChar ' ' t)) =
          some (JVal.obj fs) ∧
        jlookup "confidence".data fs =
          some (JVal.str (FlaskApp.Confidence.value r.confidence)) ∧
        (FlaskApp.Confidence.value r.confidence = "HIGH".data ∨
          FlaskApp.Confidence.value r.confidence = "MODERATE".data ∨
          FlaskApp.Confidence.value r.confidence = "LOW".data)) ∧
    (∀ fs s, jsonLoads (pyReplaceChar crChar ' ' (pyReplaceChar nlChar ' ' t)) =
        some (JVal.obj fs) →
      jlookup "confidence".data fs = some (JVal.str s) →
      FlaskApp.parseConfidence s = none →
      isOkE (FlaskApp.analyzeAttempt (GatewayResult.text t)) = false) := by
  constructor
  · intro r h
    simp only [FlaskApp.analyzeAttempt] at h
    split at h
    · exact Except.noConfusion h
    next j hjs =>
      rcases FlaskApp.model_validate_ok_inv h with ⟨fs, hobj, hconf⟩
      subst hobj
      refine ⟨fs, hjs, hconf, ?_⟩
      cases r.confidence <;> simp [FlaskApp.Confidence.value]
  · intro fs s hj hl hn
    simp only [FlaskApp.analyzeAttempt]
    split
    · rfl
    next j hjs =>
      rw [hj] at hjs
      injection hjs with hjs2
      subst hjs2
      rcases hmv : FlaskApp.model_validate (JVal.obj fs) with e | r
      · rfl
      · rcases FlaskApp.model_validate_ok_inv hmv with ⟨fs2, hobj, hconf⟩
        injection hobj with hfs2
        subst hfs2
        rw [hl] at hconf
        injection hconf with hc2
        injection hc2 with hc3
        rw [hc3, FlaskApp.parseConfidence_value_roundtrip] at hn
        exact Option.noConfusion hn

/-- Closed form of the follow-up chunk loop: one `message` event per non-empty
chunk in order, and a full response equal to the concatenation of all chunks. -/
theorem followupChunkEvents_eq (cs : List Str) :
    followupChunkEvents cs =
      ((cs.filter (fun c => !c.isEmpty)).map Event.message, cs.flatten) := by
  induction cs with
  | nil => rfl
  | cons c rest ih =>
    by_cases hc : c.isEmpty
    · have hce : c = [] := List.isEmpty_iff.mp hc
      simp [followupChunkEvents, hc, ih, hce]
    · simp [followupChunkEvents, hc, ih]

/-- Message events are never counted as errors. -/
theorem countP_isError_map_message (cs : List Str) :
    ((cs.map Event.message).countP Event.isError) = 0 := by
  induction cs with
  | nil => rfl
  | cons c rest ih => simp [List.countP_cons, ih, Event.isError]

/-- C9: in the Flask variant every stage output is character-normalized before
being forwarded or persisted — the Stage-1 text contains no double quote, and
the Stage-2 and Stage-2.5 texts contain no newline and no carriage return. -/
theorem C9_flask_stage_text_normalization (t1 t2 t3 : Str) :
    (∃ s, FlaskApp.get_studies (GatewayResult.text t1) = Except.ok s ∧ dquote ∉ s) ∧
    (∃ s, FlaskApp.extract_studies_data (GatewayResult.text t2) = Except.ok s ∧
      nlChar ∉ s ∧ crChar ∉ s) ∧
    (∃ s, FlaskApp.summarize_data_for_analysis (GatewayResult.text t3) = Except.ok s ∧
      nlChar ∉ s ∧ crChar ∉ s) := by
  refine ⟨⟨_, rfl, ?_⟩, ⟨_, rfl, ?_, ?_⟩, ⟨_, rfl, ?_, ?_⟩⟩
  · exact pyReplaceChar_not_mem_self dquote squote (by decide) t1
  · exact pyReplaceChar_not_mem crChar ' ' nlChar (by decide) _
      (pyReplaceChar_not_mem_self nlChar ' ' (by decide) t2)
  · exact pyReplaceChar_not_mem_self crChar ' ' (by decide) _
  · exact pyReplaceChar_not_mem dquote squote nlChar (by decide) _
      (pyReplaceChar_not_mem crChar ' ' nlChar (by decide) _
        (pyReplaceChar_not_mem_self nlChar ' ' (by decide) t3))
  · exact pyReplaceChar_not_mem dquote squote crChar (by decide) _
      (pyReplaceChar_not_mem_self crChar ' ' (by decide) _)

/-- C10: when the FastAPI follow-up model stream raises after yielding some
chunks, the handler emits exactly one `error` event (after the chunk `message`
events) and the session — in particular its history — is left unchanged. -/
theorem C10_followup_failure_leaves_history (sd : MaraApi.Session) (msg : Str)
    (chunks : List Str) (e : Str) :
    (MaraApi.followup_generator sd msg ⟨chunks, some e⟩).2 = sd ∧
    (MaraApi.followup_generator sd msg ⟨chunks, some e⟩).1 =
      Event.update updFollowup ::
        ((chunks.filter (fun c => !c.isEmpty)).map Event.message ++
          [Event.error (errWrap e)]) ∧
    ((MaraApi.followup_generator sd msg ⟨chunks, some e⟩).1.countP Event.isError = 1) := by
  refine ⟨rfl, ?_, ?_⟩
  · simp [MaraApi.followup_generator, followupChunkEvents_eq]
  · simp [MaraApi.followup_generator, followupChunkEvents_eq, List.countP_cons,
      List.countP_append, countP_isError_map_message, Event.isError]

/-- C8 amended: after a FastAPI follow-up turn whose model stream completes
without raising, the session history grows by exactly two entries — the user
message then the assistant response, which is the concatenation of all chunks —
no error event is emitted, and one `message` event is emitted per non-empty
chunk (so the stream may legitimately carry zero `message` events when the
model returned no text). -/
theorem C8_amended_followup_history (sd : MaraApi.Session) (msg : Str)
    (chunks : List Str) :
    (MaraApi.followup_generator sd msg ⟨chunks, none⟩).1 =
      Event.update updFollowup :: (chunks.filter (fun c => !c.isEmpty)).map Event.message ∧
    (MaraApi.followup_generator sd msg ⟨chunks, none⟩).2.history =
      sd.history ++ [(MaraApi.roleUser, msg), (MaraApi.roleAssistant, chunks.flatten)] ∧
    ((MaraApi.followup_generator sd msg ⟨chunks, none⟩).1.countP Event.isError = 0) ∧
    ((MaraApi.followup_generator sd msg ⟨chunks, none⟩).1.countP Event.isMessage =
      (chunks.filter (fun c => !c.isEmpty)).length) := by
  refine ⟨?_, ?_, ?_, ?_⟩
  · simp [MaraApi.followup_generator, followupChunkEvents_eq]
  · simp [MaraApi.followup_generator, followupChunkEvents_eq]
  · simp [MaraApi.followup_generator, followupChunkEvents_eq, List.countP_cons,
      countP_isError_map_message, Event.isError]
  · simp only [MaraApi.followup_generator, followupChunkEvents_eq, List.countP_cons,
      Event.isMessage]
    induction (chunks.filter (fun c => !c.isEmpty)) with
    | nil => rfl
    | cons c rest ih => simp [List.countP_cons, ih, Event.isMessage]

/-- C8 counterexample: a FastAPI follow-up whose model stream completes without
yielding any text is a successful turn — no error event, and the history grows
by the two entries — yet the stream carries zero `message` events and the
assistant entry is the empty concatenation, contradicting the claim that every
successful follow-up yields one or more message chunks with non-empty
concatenation. -/
theorem C8_counterexample_empty_stream :
    ((MaraApi.followup_generator sessMara0 "m".data ⟨[], none⟩).1.countP Event.isError = 0) ∧
    ((MaraApi.followup_generator sessMara0 "m".data ⟨[], none⟩).2.history =
      sessMara0.history ++ [(MaraApi.roleUser, "m".data), (MaraApi.roleAssistant, [])]) ∧
    ((MaraApi.followup_generator sessMara0 "m".data ⟨[], none⟩).1.countP Event.isMessage = 0) := by
  refine ⟨by rfl, by rfl, by rfl⟩

/-- C7: in both variants, a follow-up by an authenticated user against a session
created by a different user fails with the access-denied condition — a single
access-denied error event in the Flask variant, a 403 in the FastAPI variant —
and no model call is made for that request. -/
theorem C7_ownership_access_denied
    (storeF : Str → Option FlaskApp.Session) (storeM : Str → Option MaraApi.Session)
    (userA userB : Int) (convId msg : Str) (sF : FlaskApp.Session) (sM : MaraApi.Session)
    (o o2 : StreamOracle)
    (hcne : convId.isEmpty = false) (hmne : msg.isEmpty = false)
    (hsF : storeF convId = some sF) (hoF : sF.user_id = userB)
    (hsM : storeM convId = some sM) (hoM : sM.user_id = userB)
    (hne : userA ≠ userB) :
    FlaskApp.followup_api storeF userA convId msg o =
      FlaskApp.FollowupResponse.stream [Event.error accessDeniedMsg] 0 ∧
    MaraApi.followup_api storeM userA convId msg o2 =
      MaraApi.FollowupResponse.forbidden := by
  constructor
  · unfold FlaskApp.followup_api
    rw [hsF]
    have hown : sF.user_id ≠ userA := by
      rw [hoF]
      exact fun hba => hne hba.symm
    simp [hcne, hmne, hown]
  · unfold MaraApi.followup_api
    rw [hsM]
    have hown : sM.user_id ≠ userA := by
      rw [hoM]
      exact fun hba => hne hba.symm
    simp [hown]

/-- Witness for C7 at concrete inputs: user 1 asking about a session owned by
user 2 is denied in both variants with no model call. -/
theorem C7_witness :
    FlaskApp.followup_api (fun c => if c = "k".data then some sessFlask0 else none)
      1 "k".data "m".data ⟨["x".data], none⟩ =
      FlaskApp.FollowupResponse.stream [Event.error accessDeniedMsg] 0 ∧
    MaraApi.followup_api (fun c => if c = "k".data then some sessMara0 else none)
      1 "k".data "m".data ⟨["x".data], none⟩ =
      MaraApi.FollowupResponse.forbidden :=
  C7_ownership_access_denied
    (fun c => if c = "k".data then some sessFlask0 else none)
    (fun c => if c = "k".data then some sessMara0 else none)
    1 2 "k".data "m".data sessFlask0 sessMara0 ⟨["x".data], none⟩ ⟨["x".data], none⟩
    (by rfl) (by rfl) (by rfl) (by rfl) (by rfl) (by rfl) (by decide)

/-- C1: each chat pipeline run emits exactly one terminal event — one result
or one error, never both, never neither — and when the terminal event is a
result it is preceded by the stage update events in stage order and directly
followed by the conversation id event, in both the Flask and FastAPI variants. -/

theorem C1_exactly_one_terminal_event (uid uid2 : Int) (q q2 cid cid2 : Str)
    (o : FlaskApp.ChatOracle) (o2 : MaraApi.ChatOracle)
    (hq : q ≠ []) (hq2 : q2 ≠ []) :
    ((((FlaskApp.event_generator uid q cid o).events.countP Event.isResult = 1 ∧
       (FlaskApp.event_generator uid q cid o).events.countP Event.isError = 0) ∨
      ((FlaskApp.event_generator uid q cid o).events.countP Event.isResult = 0 ∧
       (FlaskApp.event_generator uid q cid o).events.countP Event.isError = 1)) ∧
     ((FlaskApp.event_generator uid q cid o).events.countP Event.isResult = 1 →
       ∃ a, (FlaskApp.event_generator uid q cid o).events =
         [Event.update updFinding,
          Event.fetch_result (FlaskApp.resultsUrl cid ":step1".data),
          Event.update updExtracting,
          Event.fetch_result (FlaskApp.resultsUrl cid ":step2".data),
          Event.update updCompacting,
          Event.update updAnalyzing,
          Event.result a,
          Event.conversation_id cid])) ∧
    ((((MaraApi.event_generator uid2 q2 cid2 o2).events.countP Event.isResult = 1 ∧
       (MaraApi.event_generator uid2 q2 cid2 o2).events.countP Event.isError = 0) ∨
      ((MaraApi.event_generator uid2 q2 cid2 o2).events.countP Event.isResult = 0 ∧
       (MaraApi.event_generator uid2 q2 cid2 o2).events.countP Event.isError = 1)) ∧
     ((MaraApi.event_generator uid2 q2 cid2 o2).events.countP Event.isResult = 1 →
       ∃ s1 s2 a, (MaraApi.event_generator uid2 q2 cid2 o2).events =
         [Event.update updFinding,
          Event.step_result 1 s1,
          Event.update updExtracting,
          Event.step_result 2 s2,
          Event.update updAnalyzing,
          Event.result a,
          Event.conversation_id cid2,
          Event.update updSuggestions])) := by
  constructor
  · unfold FlaskApp.event_generator
    try dsimp only
    rcases h1 : FlaskApp.get_studies o.step1 with e1 | s1
    · try simp only [h1]
      refine ⟨Or.inr ⟨?_, ?_⟩, ?_⟩ <;>
          simp [List.countP_cons, List.countP_nil, Event.isResult, Event.isError]
    · try simp only [h1]
      cases hb1 : o.redis1
      · try simp only [hb1]
        refine ⟨Or.inr ⟨?_, ?_⟩, ?_⟩ <;>
            simp [List.countP_cons, List.countP_nil, Event.isResult, Event.isError]
      · rcases h2 : FlaskApp.extract_studies_data o.step2 with e2 | s2
        · try simp only [h2]
          refine ⟨Or.inr ⟨?_, ?_⟩, ?_⟩ <;>
              simp [List.countP_cons, List.countP_nil, Event.isResult, Event.isError]
        · try simp only [h2]
          cases hb2 : o.redis2
          · try simp only [hb2]
            refine ⟨Or.inr ⟨?_, ?_⟩, ?_⟩ <;>
                simp [List.countP_cons, List.countP_nil, Event.isResult, Event.isError]
          · rcases h25 : FlaskApp.summarize_data_for_analysis o.step25 with e25 | s25
            · try simp only [h25]
              refine ⟨Or.inr ⟨?_, ?_⟩, ?_⟩ <;>
                  simp [List.countP_cons, List.countP_nil, Event.isResult, Event.isError]
            · try simp only [h25]
              rcases h3 : (FlaskApp.analyze_studies o.step3).2 with e3 | analysis
              · try simp only [h3]
                refine ⟨Or.inr ⟨?_, ?_⟩, ?_⟩ <;>
                    simp [List.countP_cons, List.countP_nil, Event.isResult, Event.isError]
              · try simp only [h3]
                cases hbS : o.redisS
                · try simp only [hbS]
                  refine ⟨Or.inr ⟨?_, ?_⟩, ?_⟩ <;>
                      simp [List.countP_cons, List.countP_nil, Event.isResult, Event.isError]
                · try simp only [hbS]
                  refine ⟨Or.inl ⟨?_, ?_⟩, fun _ => ⟨_, rfl⟩⟩ <;>
                    simp [List.countP_cons, List.countP_nil, Event.isResult, Event.isError]
  · unfold MaraApi.event_generator
    try dsimp only
    rcases h1 : MaraApi.get_studies q2 o2.step1 with ⟨n1, e1 | s1⟩
    · try simp only [h1]
      refine ⟨Or.inr ⟨?_, ?_⟩, ?_⟩ <;>
          simp [List.countP_cons, List.countP_nil, Event.isResult, Event.isError]
    · try simp only [h1]
      rcases h2 : MaraApi.extract_studies_data s1 o2.step2 with ⟨n2, e2 | s2⟩
      · try simp only [h2]
        refine ⟨Or.inr ⟨?_, ?_⟩, ?_⟩ <;>
            simp [List.countP_cons, List.countP_nil, Event.isResult, Event.isError]
      · try simp only [h2]
        rcases h3 : MaraApi.analyze_studies s2 o2.step3 with ⟨n3, e3 | analysis⟩
        · try simp only [h3]
          refine ⟨Or.inr ⟨?_, ?_⟩, ?_⟩ <;>
              simp [List.countP_cons, List.countP_nil, Event.isResult, Event.isError]
        · try simp only [h3]
          refine ⟨Or.inl ⟨?_, ?_⟩, fun _ => ⟨_, _, _, rfl⟩⟩ <;>
            simp [List.countP_cons, List.countP_nil, Event.isResult, Event.isError]

/-- Witness for C1 at concrete inputs: a non-empty query with fully successful
oracles reaches the result and conversation-id events in both variants. -/
theorem C1_witness :
    ((((FlaskApp.event_generator 1 "q".data "c".data okFlaskOracle).events.countP
          Event.isResult = 1 ∧
       (FlaskApp.event_generator 1 "q".data "c".data okFlaskOracle).events.countP
          Event.isError = 0) ∨
      ((FlaskApp.event_generator 1 "q".data "c".data okFlaskOracle).events.countP
          Event.isResult = 0 ∧
       (FlaskApp.event_generator 1 "q".data "c".data okFlaskOracle).events.countP
          Event.isError = 1)) ∧
     ((FlaskApp.event_generator 1 "q".data "c".data okFlaskOracle).events.countP
          Event.isResult = 1 →
       ∃ a, (FlaskApp.event_generator 1 "q".data "c".data okFlaskOracle).events =
         [Event.update updFinding,
          Event.fetch_result (FlaskApp.resultsUrl "c".data ":step1".data),
          Event.update updExtracting,
          Event.fetch_result (FlaskApp.resultsUrl "c".data ":step2".data),
          Event.update updCompacting,
          Event.update updAnalyzing,
          Event.result a,
          Event.conversation_id "c".data])) ∧
    ((((MaraApi.event_generator 1 "q".data "c".data okMaraOracle).events.countP
          Event.isResult = 1 ∧
       (MaraApi.event_generator 1 "q".data "c".data okMaraOracle).events.countP
          Event.isError = 0) ∨
      ((MaraApi.event_generator 1 "q".data "c".data okMaraOracle).events.countP
          Event.isResult = 0 ∧
       (MaraApi.event_generator 1 "q".data "c".data okMaraOracle).events.countP
          Event.isError = 1)) ∧
     ((MaraApi.event_generator 1 "q".data "c".data okMaraOracle).events.countP
          Event.isResult = 1 →
       ∃ s1 s2 a, (MaraApi.event_generator 1 "q".data "c".data okMaraOracle).events =
         [Event.update updFinding,
          Event.step_result 1 s1,
          Event.update updExtracting,
          Event.step_result 2 s2,
          Event.update updAnalyzing,
          Event.result a,
          Event.conversation_id "c".data,
          Event.update updSuggestions])) :=
  C1_exactly_one_terminal_event 1 1 "q".data "q".data "c".data "c".data
    okFlaskOracle okMaraOracle (by decide) (by decide)

/-- Every Flask chat run makes exactly one Stage-1 gateway call: the handler
never rejects a query — empty or not — before calling `get_studies`. -/
theorem FlaskApp.event_generator_c1 (uid : Int) (q cid : Str) (o : FlaskApp.ChatOracle) :
    (FlaskApp.event_generator uid q cid o).c1 = 1 := by
  unfold FlaskApp.event_generator
  try dsimp only
  repeat' split <;> try rfl
  all_goals try rfl

/-- C2 counterexample: on the empty query, the FastAPI stream still emits one
`update` progress event before the error, and the Flask variant does not reject
the empty query at all — it makes the Stage-1 gateway call and emits all four
stage update events. -/
theorem C2_counterexample_empty_query :
    ((MaraApi.event_generator 1 [] "c".data okMaraOracle).events.countP Event.isUpdate = 1) ∧
    ((MaraApi.event_generator 1 [] "c".data okMaraOracle).c1 = 0) ∧
    ((FlaskApp.event_generator 1 [] "c".data okFlaskOracle).c1 = 1) ∧
    ((FlaskApp.event_generator 1 [] "c".data okFlaskOracle).events.countP Event.isUpdate = 4) := by
  refine ⟨by rfl, by rfl, by rfl, by rfl⟩

/-- C2 amended: the FastAPI variant makes no gateway call for the empty query —
Stage 1 raises before calling the gateway — and the stream terminates with a
single error event and no stored session, but only after the first `update`
progress event has been emitted; the Flask variant does not reject the empty
query and always makes the Stage-1 gateway call. -/
theorem C2_amended_empty_query (uid uid2 : Int) (cid cid2 : Str)
    (o : FlaskApp.ChatOracle) (o2 : MaraApi.ChatOracle) :
    (MaraApi.event_generator uid2 [] cid2 o2).events =
      [Event.update updFinding, Event.error (errWrap MaraApi.emptyQueryMsg)] ∧
    (MaraApi.event_generator uid2 [] cid2 o2).c1 = 0 ∧
    (MaraApi.event_generator uid2 [] cid2 o2).c2 = 0 ∧
    (MaraApi.event_generator uid2 [] cid2 o2).c3 = 0 ∧
    (MaraApi.event_generator uid2 [] cid2 o2).stored = none ∧
    (FlaskApp.event_generator uid [] cid o).c1 = 1 := by
  refine ⟨?_, ?_, ?_, ?_, ?_, FlaskApp.event_generator_c1 uid [] cid o⟩ <;>
    simp [MaraApi.event_generator, MaraApi.get_studies]

/-- If every attempt up to the budget fails, the Stage-3 loop makes exactly one
attempt per remaining unit plus the current one, and raises. -/
theorem FlaskApp.analyzeLoop_all_fail (oracle : Nat → GatewayResult) :
    ∀ remaining i,
      (∀ k, k ≤ remaining → isOkE (FlaskApp.analyzeAttempt (oracle (i + k))) = false) →
      (FlaskApp.analyzeLoop oracle i remaining).1 = remaining + 1 ∧
      ∃ e, (FlaskApp.analyzeLoop oracle i remaining).2 = Except.error e := by
  intro remaining
  induction remaining with
  | zero =>
    intro i h
    have h0 := h 0 (Nat.le_refl 0)
    unfold FlaskApp.analyzeLoop
    rcases ha : FlaskApp.analyzeAttempt (oracle i) with e | r
    · exact ⟨rfl, ⟨_, rfl⟩⟩
    · rw [Nat.add_zero] at h0
      rw [ha] at h0
      exact absurd h0 (by simp [isOkE])
  | succ rem ih =>
    intro i h
    have h0 := h 0 (Nat.zero_le _)
    unfold FlaskApp.analyzeLoop
    rcases ha : FlaskApp.analyzeAttempt (oracle i) with e | r
    · have hrest := ih (i + 1) (fun k hk => by
        have hh := h (k + 1) (Nat.succ_le_succ hk)
        have harr : i + 1 + k = i + (k + 1) := by omega
        rw [harr]
        exact hh)
      refine ⟨?_, ?_⟩
      · show (FlaskApp.analyzeLoop oracle (i + 1) rem).1 + 1 = rem + 1 + 1
        simp [hrest.1]
      · show ∃ e1, (FlaskApp.analyzeLoop oracle (i + 1) rem).2 = Except.error e1
        exact hrest.2
    · rw [Nat.add_zero] at h0
      rw [ha] at h0
      exact absurd h0 (by simp [isOkE])

/-- C4 amended: in the Flask pipeline the retry is local to the Stage-3 gateway
call — when every attempt fails, `analyze_studies` makes exactly
`max_retries + 1` attempts and raises, and the run makes exactly one gateway
call for each of Stages 1, 2 and 2.5, exactly two Stage-3 attempts under the
default budget of one retry, and terminates with a single error event and no
result event; in the Celery variant, by contrast, the configured task-level
retry re-executes the whole pipeline (shown separately by the counterexample). -/
theorem C4_retry_budget_and_locality (mr : Nat) (oracle : Nat → GatewayResult)
    (uid : Int) (q cid : Str) (o : FlaskApp.ChatOracle)
    (hall : ∀ k, k ≤ mr → isOkE (FlaskApp.analyzeAttempt (oracle k)) = false)
    (h1 : ∃ t1, o.step1 = GatewayResult.text t1)
    (h2 : ∃ t2, o.step2 = GatewayResult.text t2)
    (h25 : ∃ t25, o.step25 = GatewayResult.text t25)
    (h3 : ∀ k, k ≤ 1 → isOkE (FlaskApp.analyzeAttempt (o.step3 k)) = false)
    (hr1 : o.redis1 = true) (hr2 : o.redis2 = true) :
    ((FlaskApp.analyze_studies oracle mr).1 = mr + 1 ∧
     ∃ e, (FlaskApp.analyze_studies oracle mr).2 = Except.error e) ∧
    ((FlaskApp.event_generator uid q cid o).c1 = 1 ∧
     (FlaskApp.event_generator uid q cid o).c2 = 1 ∧
     (FlaskApp.event_generator uid q cid o).c25 = 1 ∧
     (FlaskApp.event_generator uid q cid o).c3 = 2 ∧
     (FlaskApp.event_generator uid q cid o).events.countP Event.isError = 1 ∧
     (FlaskApp.event_generator uid q cid o).events.countP Event.isResult = 0) := by
  constructor
  · exact FlaskApp.analyzeLoop_all_fail oracle mr 0 (by simpa using hall)
  · rcases h1 with ⟨t1, ht1⟩
    rcases h2 with ⟨t2, ht2⟩
    rcases h25 with ⟨t25, ht25⟩
    have ha : (FlaskApp.analyze_studies o.step3).1 = 2 ∧
        ∃ e, (FlaskApp.analyze_studies o.step3).2 = Except.error e := by
      have := FlaskApp.analyzeLoop_all_fail o.step3 1 0 (by simpa using h3)
      simpa [FlaskApp.analyze_studies] using this
    rcases ha.2 with ⟨e3, he3⟩
    unfold FlaskApp.event_generator
    try dsimp only
    rw [ht1]
    simp only [FlaskApp.get_studies]
    rw [hr1]
    rw [ht2]
    simp only [FlaskApp.extract_studies_data]
    rw [hr2]
    rw [ht25]
    simp only [FlaskApp.summarize_data_for_analysis]
    rw [he3]
    simp [List.countP_cons, List.countP_nil, Event.isResult, Event.isError, ha.1]

/-- Witness for C4 at concrete inputs: with a Stage-3 oracle failing every
attempt, the loop with budget 2 makes exactly 3 attempts, and the pipeline run
with the default budget makes one call per early stage, two Stage-3 attempts,
and ends in a single error event. -/
theorem C4_witness :
    ((FlaskApp.analyze_studies (fun _ => GatewayResult.error "x".data) 2).1 = 3 ∧
     ∃ e, (FlaskApp.analyze_studies (fun _ => GatewayResult.error "x".data) 2).2 =
       Except.error e) ∧
    ((FlaskApp.event_generator 1 "q".data "c".data failFlaskOracle).c1 = 1 ∧
     (FlaskApp.event_generator 1 "q".data "c".data failFlaskOracle).c2 = 1 ∧
     (FlaskApp.event_generator 1 "q".data "c".data failFlaskOracle).c25 = 1 ∧
     (FlaskApp.event_generator 1 "q".data "c".data failFlaskOracle).c3 = 2 ∧
     (FlaskApp.event_generator 1 "q".data "c".data failFlaskOracle).events.countP
       Event.isError = 1 ∧
     (FlaskApp.event_generator 1 "q".data "c".data failFlaskOracle).events.countP
       Event.isResult = 0) :=
  C4_retry_budget_and_locality 2 (fun _ => GatewayResult.error "x".data)
    1 "q".data "c".data failFlaskOracle
    (fun _ _ => by rfl)
    ⟨"a".data, rfl⟩ ⟨"b".data, rfl⟩ ⟨"c".data, rfl⟩
    (fun _ _ => by rfl) rfl rfl

/-- C4 counterexample: in the Celery variant the decorator-level retry is not
local to the failing stage — with Stage 3 raising on every execution and
Stages 1 and 2 succeeding, the configured `max_retries=3` re-runs the whole
task, so Stage 1 and Stage 2 are each executed four times even though a single
task-body execution runs each stage exactly once. -/
theorem C4_counterexample_celery_replays_all_stages :
    (Tasks.celeryDispatch (fun _ => celeryBadOracle)).c1 = 4 ∧
    (Tasks.celeryDispatch (fun _ => celeryBadOracle)).c2 = 4 ∧
    (Tasks.celeryDispatch (fun _ => celeryBadOracle)).c3 = 4 ∧
    (Tasks.run_full_analysis celeryBadOracle).c1 = 1 ∧
    (Tasks.run_full_analysis celeryBadOracle).res = Except.error "boom".data := by
  refine ⟨by rfl, by rfl, by rfl, by rfl, by rfl⟩

/-- C5 counterexample: a Stage-3 raw text wrapped in a markdown code fence is
rejected by the Flask validator with a JSON decode failure, even though the
defenced text inside the fence parses and satisfies the schema — the validator
does not strip code fences. -/
theorem C5_counterexample_fenced_text_rejected :
    jsonLoads flaskInnerText = some flaskInnerJ ∧
    FlaskApp.model_validate flaskInnerJ = Except.ok flaskInnerResp ∧
    FlaskApp.analyzeAttempt (GatewayResult.text fencedText) = Except.error jsonDecodeErr := by
  refine ⟨by rfl, by rfl, by rfl⟩

/-- C5 amended: the Flask validator normalizes only newline and carriage-return
characters (replaced by spaces before JSON parsing), so a raw text whose only
defect is a literal newline inside a JSON string value is accepted; it does not
strip markdown code fences and does not lower-case field names — fenced input
and capitalized keys are rejected while the same text with lower-case keys is
accepted; the FastAPI validator applies no normalization at all, rejecting the
newline text that becomes valid once its newline is replaced by a space. -/
theorem C5_amended_validator_normalization :
    FlaskApp.analyzeAttempt (GatewayResult.text flaskGoodNl) = Except.ok flaskGoodResp ∧
    FlaskApp.analyzeAttempt (GatewayResult.text caseText) = Except.error validationErr ∧
    FlaskApp.analyzeAttempt (GatewayResult.text flaskInnerText) = Except.ok flaskInnerResp ∧
    FlaskApp.analyzeAttempt (GatewayResult.text fencedText) = Except.error jsonDecodeErr ∧
    MaraApi.model_validate_json maraGoodNl = Except.error jsonDecodeErr ∧
    MaraApi.model_validate_json (pyReplaceChar nlChar ' ' maraGoodNl) =
      Except.ok maraGoodNlResp := by
  refine ⟨by rfl, by rfl, by rfl, by rfl, by rfl, by rfl⟩

/-- C6 counterexample: a successful Flask run emits two events tagged
`fetch_result` and a successful FastAPI run emits two events tagged
`step_result`; neither tag is in the four-tag union the claim declares. -/
theorem C6_counterexample_extra_event_tags :
    ((FlaskApp.event_generator 1 "q".data "c".data okFlaskOracle).events.countP
      (fun e => decide (e.tag = "fetch_result".data)) = 2) ∧
    ("fetch_result".data ∉ specTags) ∧
    ((MaraApi.event_generator 1 "q".data "c".data okMaraOracle).events.countP
      (fun e => decide (e.tag = "step_result".data)) = 2) ∧
    ("step_result".data ∉ specTags) := by
  refine ⟨by rfl, by decide, by rfl, by decide⟩

/-- C6 amended: every event a Flask chat run emits is tagged with one of
update, fetch_result, result, conversation_id or error, and every event a
FastAPI chat run emits is tagged with one of update, step_result, result,
conversation_id or error; no other tag ever appears on a pipeline stream. -/
theorem C6_amended_event_tag_unions (uid uid2 : Int) (q q2 cid cid2 : Str)
    (o : FlaskApp.ChatOracle) (o2 : MaraApi.ChatOracle) :
    ((FlaskApp.event_generator uid q cid o).events.all
      (fun e => decide (e.tag ∈ flaskChatTags)) = true) ∧
    ((MaraApi.event_generator uid2 q2 cid2 o2).events.all
      (fun e => decide (e.tag ∈ maraChatTags)) = true) := by
  constructor
  · unfold FlaskApp.event_generator
    try dsimp only
    rcases h1 : FlaskApp.get_studies o.step1 with e1 | s1
    · try simp only [h1]
      simp [List.all_cons, List.all_nil, Event.tag, flaskChatTags]
    · try simp only [h1]
      cases hb1 : o.redis1
      · try simp only [hb1]
        simp [List.all_cons, List.all_nil, Event.tag, flaskChatTags]
      · rcases h2 : FlaskApp.extract_studies_data o.step2 with e2 | s2
        · try simp only [h2]
          simp [List.all_cons, List.all_nil, Event.tag, flaskChatTags]
        · try simp only [h2]
          cases hb2 : o.redis2
          · try simp only [hb2]
            simp [List.all_cons, List.all_nil, Event.tag, flaskChatTags]
          · rcases h25 : FlaskApp.summarize_data_for_analysis o.step25 with e25 | s25
            · try simp only [h25]
              simp [List.all_cons, List.all_nil, Event.tag, flaskChatTags]
            · try simp only [h25]
              rcases h3 : (FlaskApp.analyze_studies o.step3).2 with e3 | analysis
              · try simp only [h3]
                simp [List.all_cons, List.all_nil, Event.tag, flaskChatTags]
              · try simp only [h3]
                cases hbS : o.redisS
                · try simp only [hbS]
                  simp [List.all_cons, List.all_nil, Event.tag, flaskChatTags]
                · try simp only [hbS]
                  simp [List.all_cons, List.all_nil, Event.tag, flaskChatTags]
  · unfold MaraApi.event_generator
    try dsimp only
    rcases h1 : MaraApi.get_studies q2 o2.step1 with ⟨n1, e1 | s1⟩
    · try simp only [h1]
      simp [List.all_cons, List.all_nil, Event.tag, maraChatTags]
    · try simp only [h1]
      rcases h2 : MaraApi.extract_studies_data s1 o2.step2 with ⟨n2, e2 | s2⟩
      · try simp only [h2]
        simp [List.all_cons, List.all_nil, Event.tag, maraChatTags]
      · try simp only [h2]
        rcases h3 : MaraApi.analyze_studies s2 o2.step3 with ⟨n3, e3 | analysis⟩
        · try simp only [h3]
          simp [List.all_cons, List.all_nil, Event.tag, maraChatTags]
        · try simp only [h3]
          simp [List.all_cons, List.all_nil, Event.tag, maraChatTags]

/-- Witness for C3 at concrete inputs: an accepted text carries the exact HIGH
tier token, and a text whose confidence token is MEDIUM is rejected. -/
theorem C3_witness :
    (∃ fs, jsonLoads (pyReplaceChar crChar ' ' (pyReplaceChar nlChar ' ' flaskGoodNl)) =
        some (JVal.obj fs) ∧
      jlookup "confidence".data fs =
        some (JVal.str (FlaskApp.Confidence.value flaskGoodResp.confidence)) ∧
      (FlaskApp.Confidence.value flaskGoodResp.confidence = "HIGH".data ∨
        FlaskApp.Confidence.value flaskGoodResp.confidence = "MODERATE".data ∨
        FlaskApp.Confidence.value flaskGoodResp.confidence = "LOW".data)) ∧
    isOkE (FlaskApp.analyzeAttempt (GatewayResult.text badConfText)) = false := by
  constructor
  · exact (C3_confidence_exactly_three_tiers flaskGoodNl).1 flaskGoodResp (by rfl)
  · exact (C3_confidence_exactly_three_tiers badConfText).2
      [("summary".data, JVal.str "s".data),
       ("confidence".data, JVal.str "MEDIUM".data),
       ("details".data, JVal.obj [("process".data, JVal.str "p".data)])]
      "MEDIUM".data (by rfl) (by rfl) (by rfl)
